import Mathlib

/-!
Verification of `src/utils/ts_utils.py`: the stationarity transformer
(`make_stationary`), the forecast-bias calculator (`forecast_bias`) and the
metric input normalizer/dispatcher (`darts_metrics_adapter`).

Modelling conventions.

* Python float arrays are idealized as exact number sequences: `List ℝ` for
  the transform component (which uses `log`/`exp`), `List ℚ` elsewhere so the
  embedding stays executable.  A possibly-NaN array entry is an `Option ℚ`
  (`none` models NaN).
* The only place where IEEE special values matter to the code under
  verification is the final division and multiplication in `forecast_bias`;
  those two operations are modelled by `PyFloat` with the IEEE rules for
  division by zero and for multiplying an infinity or NaN by a constant.
* A Python function that can raise is embedded with a sum-typed result: a
  `raise` becomes an error value, a normal return a success value, and an
  implicit `return None` a distinguished non-error outcome.
* The code mutates the caller's `detrend_kwargs` dict in place
  (`detrend_kwargs["return_trend"] = True`).  Python dicts are passed by
  reference, so the caller observes the mutated object after the call; the
  embedding makes this explicit by returning the dict's final state alongside
  the function's result.
-/

namespace TsUtils

/- ### Stationarity transformer (`make_stationary`) -/

/-- The `detrend_kwargs` dict passed to `make_stationary`.  The function only
ever touches the `"return_trend"` key (`return_trend = none` models the key
being absent); every other entry is opaque to it and is represented by the
list `rest` of remaining keys. -/
structure DetrendKwargs where
  return_trend : Option Bool
  rest : List String
  deriving DecidableEq

/-- The pair returned by `make_stationary`: the stationary series and the
inverse closure (`functools.partial` applied to the local
`inverse_transform`). -/
structure StationaryResult where
  stationary : List ℝ
  inverse_transform : List ℝ → List ℝ

/-- Outcome of a call to `make_stationary`.  `produced` is a normal return of
a `StationaryResult`; `noResult` is Python's implicit `return None`, which is
what the source's `if`/`elif` chain does when `method` matches neither branch;
`raised` represents a raised exception (such as the configuration error the
spec recommends for an unknown method).  The body of `make_stationary`
contains no `raise` statement, so the embedding never produces `raised`; the
constructor exists so that the spec's recommended error policy is statable. -/
inductive StatOutcome
  | produced (r : StationaryResult)
  | noResult
  | raised (err : String)

/-- True exactly when the outcome is a raised exception. -/
def StatOutcome.isRaised : StatOutcome → Bool
  | .raised _ => true
  | _ => false

/-- Round trip of an outcome: apply the returned inverse closure to the
returned stationary series.  `none` when no `StationaryResult` was produced. -/
def StatOutcome.roundTrip : StatOutcome → Option (List ℝ)
  | .produced r => some (r.inverse_transform r.stationary)
  | _ => none

/-- Modelled from the spec: the detrending collaborator `_detrend` lives in
`src/decomposition/seasonal.py`, which is not under `src/`.  Per the spec it
decomposes `x` into a residual (stationary) component and a trend component
and, because `return_trend` is forced on by the caller, returns the pair
`(residual, trend)` with `residual = x - trend` elementwise.  The concrete
trend series it extracts is the collaborator's own business and is therefore
taken here as an explicit argument `trend`; the `kwargs` argument records the
configuration dict the routine was invoked with. -/
def _detrend (x trend : List ℝ) (kwargs : DetrendKwargs) : List ℝ × List ℝ :=
  (List.zipWith (fun a b => a - b) x trend, trend)

/-- The dict state with which the detrending collaborator is invoked:
the caller-supplied dict after the in-place update
`detrend_kwargs["return_trend"] = True`. -/
def detrend_invocation_kwargs (kw : DetrendKwargs) : DetrendKwargs :=
  { kw with return_trend := some true }

/-- The `"logdiff"` branch's transform, `np.log(x[:-1] / x[1:])`:
entry `i` is `log (x i / x (i+1))`, for `i` ranging over all indices but the
last, so the output is one entry shorter than `x`. -/
noncomputable def logdiff_transform (x : List ℝ) : List ℝ :=
  List.zipWith (fun a b => Real.log (a / b)) x.dropLast (x.drop 1)

/-- The `"logdiff"` branch's inverse closure, `np.exp(st) * x[1:]`, with the
original input `x` captured by `functools.partial`. -/
noncomputable def logdiff_inverse (x st : List ℝ) : List ℝ :=
  List.zipWith (fun e b => e * b) (st.map Real.exp) (x.drop 1)

/-- Embedding of `make_stationary` (`src/utils/ts_utils.py`, lines 5-24).
Alongside the Python return value (first component) it returns the final
state of the caller's `detrend_kwargs` dict (second component); the
`"detrend"` branch mutates that dict in place before handing it — the very
same object — to `_detrend`, so on that branch the second component is also
exactly the configuration `_detrend` was invoked with.  The `trend` argument
feeds the modelled collaborator `_detrend` (see there). -/
noncomputable def make_stationary (x trend : List ℝ) (method : String)
    (detrend_kwargs : DetrendKwargs) : StatOutcome × DetrendKwargs :=
  if method = "detrend" then
    let kw := detrend_invocation_kwargs detrend_kwargs
    let p := _detrend x trend kw
    (.produced ⟨p.1, fun st => List.zipWith (fun a b => a + b) st p.2⟩, kw)
  else if method = "logdiff" then
    (.produced ⟨logdiff_transform x, fun st => logdiff_inverse x st⟩,
      detrend_kwargs)
  else
    (.noResult, detrend_kwargs)

/-- Decidable equality of embedded function results, so that concrete runs of
the embedded code can be checked by evaluation. -/
instance {ε α : Type} [DecidableEq ε] [DecidableEq α] : DecidableEq (Except ε α) := fun x y =>
  match x, y with
  | .ok a, .ok b =>
      if h : a = b then .isTrue (by rw [h]) else .isFalse (by simp [h])
  | .error a, .error b =>
      if h : a = b then .isTrue (by rw [h]) else .isFalse (by simp [h])
  | .ok _, .error _ => .isFalse (by simp)
  | .error _, .ok _ => .isFalse (by simp)

/- ### IEEE-flavoured scalar results -/

/-- A Python float result, as far as this module exercises it: a finite value
(idealized as an exact rational), one of the two infinities, or NaN. -/
inductive PyFloat
  | fin (q : ℚ)
  | inf
  | neginf
  | nan
  deriving DecidableEq

/-- True exactly for a finite value. -/
def PyFloat.isFinite : PyFloat → Bool
  | .fin _ => true
  | _ => false

/-- IEEE division of two finite floats: a zero divisor yields NaN (when the
dividend is also zero) or a signed infinity, never an exception. -/
def py_div (a b : ℚ) : PyFloat :=
  if b = 0 then
    if a = 0 then .nan else if 0 < a then .inf else .neginf
  else
    .fin (a / b)

/-- IEEE multiplication of a float by a finite constant (the code multiplies
the ratio by the literal `100.`). -/
def py_mul_const (f : PyFloat) (c : ℚ) : PyFloat :=
  match f with
  | .fin q => .fin (q * c)
  | .inf => if 0 < c then .inf else if c < 0 then .neginf else .nan
  | .neginf => if 0 < c then .neginf else if c < 0 then .inf else .nan
  | .nan => .nan

/- ### Forecast bias (`forecast_bias`) -/

/-- The representation kinds `forecast_bias` distinguishes (its declared
signature accepts darts `TimeSeries` or `np.ndarray`; the `isinstance` check
on `np.ndarray` separates the two). -/
inductive FBKind
  | ndarrayK
  | timeSeriesK
  deriving DecidableEq

/-- An input to `forecast_bias`: a raw numpy array of possibly-NaN values, or
a darts `TimeSeries`, i.e. values paired with timestamps (timestamps
idealized as naturals, ordered chronologically). -/
inductive FBInput
  | ndarray (vals : List (Option ℚ))
  | timeSeries (entries : List (ℕ × Option ℚ))
  deriving DecidableEq

/-- Representation kind of an input (Python's `type(x)`). -/
def FBInput.kind : FBInput → FBKind
  | .ndarray _ => .ndarrayK
  | .timeSeries _ => .timeSeriesK

/-- Errors `forecast_bias` raises directly: the failed `assert` on the two
argument types (the spec's `TypeMismatch`). -/
inductive FBError
  | typeMismatch
  deriving DecidableEq

/-- Modelled from the spec: darts' `_remove_nan_union` is library code not
under `src/`.  Per the spec it removes, pairwise, every position at which
either series holds NaN — both positions are dropped together, so the two
resulting sequences stay aligned and equal length. -/
def _remove_nan_union (y_true y_pred : List (Option ℚ)) :
    List ℚ × List ℚ :=
  let kept := (y_true.zip y_pred).filterMap fun ab =>
    match ab with
    | (some a, some b) => some (a, b)
    | _ => none
  (kept.map Prod.fst, kept.map Prod.snd)

/-- Timestamps of a `TimeSeries`. -/
def tsStamps (e : List (ℕ × Option ℚ)) : List ℕ := e.map Prod.fst

/-- Modelled from the spec: darts' `_get_values_or_raise` is library code not
under `src/`.  Per the spec, for indexed inputs it restricts both series to
their overlapping time range when `intersect` is true and then extracts the
raw value sequences. -/
def _get_values_or_raise (a p : List (ℕ × Option ℚ)) (intersect : Bool) :
    List (Option ℚ) × List (Option ℚ) :=
  if intersect then
    let lo := max ((tsStamps a).min?.getD 0) ((tsStamps p).min?.getD 0)
    let hi := min ((tsStamps a).max?.getD 0) ((tsStamps p).max?.getD 0)
    ((a.filter fun tv => lo ≤ tv.1 && tv.1 ≤ hi).map Prod.snd,
     (p.filter fun tv => lo ≤ tv.1 && tv.1 ≤ hi).map Prod.snd)
  else
    (a.map Prod.snd, p.map Prod.snd)

/-- The value extraction step of `forecast_bias`: raw arrays are used as they
are (the `intersect` flag plays no role for them); `TimeSeries` inputs go
through `_get_values_or_raise`.  The cross-kind case is unreachable, since
`forecast_bias` rejects mismatched kinds before extracting values. -/
def fb_values : FBInput → FBInput → Bool → List (Option ℚ) × List (Option ℚ)
  | .ndarray va, .ndarray vp, _ => (va, vp)
  | .timeSeries ea, .timeSeries ep, intersect => _get_values_or_raise ea ep intersect
  | _, _, _ => ([], [])

/-- The aligned value pairs `forecast_bias` actually sums over: the extracted
values with every NaN position removed pairwise (`_remove_nan_union`). -/
def retained (a p : FBInput) (intersect : Bool) : List ℚ × List ℚ :=
  _remove_nan_union (fb_values a p intersect).1 (fb_values a p intersect).2

/-- Embedding of `forecast_bias` (`src/utils/ts_utils.py`, lines 32-93).
First the `assert` that both arguments have the identical concrete type, then
value extraction (direct for arrays, `_get_values_or_raise` for series), then
pairwise NaN removal, then `((sum(y_true) - sum(y_pred)) / sum(y_true)) *
100.`; the guard against a zero actual-sum is commented out in the source, so
the division is performed unconditionally with IEEE semantics.  The
`reduction`, `inter_reduction`, `n_jobs` and `verbose` parameters are opaque
passthroughs never used on the modelled single-series path and are omitted. -/
def forecast_bias (actual_series pred_series : FBInput)
    (intersect : Bool := true) : Except FBError PyFloat :=
  if actual_series.kind ≠ pred_series.kind then
    .error .typeMismatch
  else
    .ok (py_mul_const
      (py_div
        ((retained actual_series pred_series intersect).1.sum -
          (retained actual_series pred_series intersect).2.sum)
        (retained actual_series pred_series intersect).1.sum)
      100)

/- ### Metric input normalizer & dispatcher (`darts_metrics_adapter`) -/

/-- A pandas index: its dtype flag (datetime-typed or not) and its entries
(idealized as naturals). -/
structure PdIndex where
  isDatetime : Bool
  stamps : List ℕ
  deriving DecidableEq

/-- Modelled from the spec: the predicate `is_datetime_dtypes` from
`src/utils/data_utils.py` is not under `src/`.  Per the spec it is the
index-type predicate deciding whether an index is genuinely datetime-typed. -/
def is_datetime_dtypes (idx : PdIndex) : Bool := idx.isDatetime

/-- The representation kinds the adapter distinguishes with its `isinstance`
checks: raw numpy array, pandas Series, pandas DataFrame. -/
inductive PdKind
  | ndarrayK
  | seriesK
  | dataframeK
  deriving DecidableEq

/-- An input to `darts_metrics_adapter`: a raw numpy array, an indexed
one-dimensional Series, or a DataFrame carrying its column count.  Only a
DataFrame's first column is represented by `vals` (the adapter only ever
consumes values after squeezing a single-column frame). -/
inductive AdapterInput
  | ndarray (vals : List ℚ)
  | series (index : PdIndex) (vals : List ℚ)
  | dataframe (ncols : ℕ) (index : PdIndex) (vals : List ℚ)
  deriving DecidableEq

/-- Representation kind of an adapter input (Python's `type(x)`). -/
def AdapterInput.kind : AdapterInput → PdKind
  | .ndarray _ => .ndarrayK
  | .series _ _ => .seriesK
  | .dataframe _ _ _ => .dataframeK

/-- Column count (`x.shape[1]`); only ever read on a DataFrame. -/
def AdapterInput.ncols : AdapterInput → ℕ
  | .dataframe n _ _ => n
  | _ => 0

/-- Pandas `squeeze()`: a single-column DataFrame collapses to a Series with
the same index; everything else is returned unchanged. -/
def AdapterInput.squeeze : AdapterInput → AdapterInput
  | .dataframe 1 idx v => .series idx v
  | x => x

/-- Whether the input's index is datetime-typed, via `is_datetime_dtypes`.
A raw array has no `.index` attribute; that case is unreachable where this is
used (in Python it would raise `AttributeError`) and is modelled as `false`. -/
def AdapterInput.hasDatetimeIndex : AdapterInput → Bool
  | .ndarray _ => false
  | .series idx _ => is_datetime_dtypes idx
  | .dataframe _ idx _ => is_datetime_dtypes idx

/-- Value sequence of an input (`x.values`, or the array itself). -/
def AdapterInput.values : AdapterInput → List ℚ
  | .ndarray v => v
  | .series _ v => v
  | .dataframe _ _ v => v

/-- A darts `TimeSeries` as the adapter builds it: either positional
(`TimeSeries.from_values`) or indexed (`TimeSeries.from_series`). -/
inductive TS
  | fromValues (vals : List ℚ)
  | fromSeries (index : PdIndex) (vals : List ℚ)
  deriving DecidableEq

/-- Coercion `TimeSeries.from_values(x.values if is_pd_series else x)`. -/
def toTSFromValues (x : AdapterInput) : TS := .fromValues x.values

/-- Coercion `TimeSeries.from_series(x)`.  Only applied to indexed inputs;
the array case is unreachable and keeps the input's values under an empty
non-datetime index. -/
def toTSFromSeries : AdapterInput → TS
  | .series idx v => .fromSeries idx v
  | .dataframe _ idx v => .fromSeries idx v
  | .ndarray v => .fromSeries ⟨false, []⟩ v

/-- Errors raised by `darts_metrics_adapter`: the failed type `assert`s (the
spec's `TypeMismatch`); the `ValueError` whose message is `"Dataframes not
supported in the adapter. Use either Series with datetime index or numpy
arrays"`; the `ValueError` `"MASE needs pandas Series with datetime index as
inputs"` (the spec's `MissingDatetimeIndex`); and the bare `raise
ValueError()` of the final coercion branch (the spec's
`NormalizationError`). -/
inductive AdapterError
  | typeMismatch
  | dataframesNotSupported
  | maseNeedsDatetime
  | normalizationError
  deriving DecidableEq

/-- The call the adapter forwards to the injected metric function: the metric
name, the two coerced series, and — for the index-dependent metric `"mase"`
only — the coerced in-sample series and the seasonality `m`; `insample` and
`m` are `none` when the forwarded call omits them.  The `reduction`,
`inter_reduction`, `n_jobs` and `verbose` passthroughs are opaque to the
adapter's logic and are not represented. -/
structure MetricCall where
  name : String
  actual_series : TS
  pred_series : TS
  insample : Option TS
  m : Option ℤ
  intersect : Bool
  deriving DecidableEq

/-- The final dispatch: `"mase"` gets `insample` and `m` forwarded, every
other metric is called without them. -/
def build_metric_call (name : String) (a p : TS) (ins : Option TS) (m : ℤ)
    (intersect : Bool) : MetricCall :=
  if name = "mase" then
    ⟨name, a, p, ins, some m, intersect⟩
  else
    ⟨name, a, p, none, none, intersect⟩

/-- Embedding of `darts_metrics_adapter` (`src/utils/ts_utils.py`, lines
95-146), with the injected metric function represented by its `__name__`.
The source's control flow is kept as written: the two type `assert`s; the
`isinstance` flags; the branch `if is_pd_dataframe and actual_series.shape[1]
== 1` whose `else` raises the `"Dataframes not supported..."` `ValueError`
(so that every input that is not a single-column DataFrame takes the `else`);
the datetime-index determination; the `"mase"` index check; the coercion to
`TimeSeries`; and the final dispatch. -/
def darts_metrics_adapter (metricName : String)
    (actual_series pred_series : AdapterInput)
    (insample : Option AdapterInput := none) (m : ℤ := 1)
    (intersect : Bool := true) : Except AdapterError MetricCall :=
  if actual_series.kind ≠ pred_series.kind then
    .error .typeMismatch
  else if insample.any (fun s => s.kind != actual_series.kind) then
    .error .typeMismatch
  else
    let is_nd_array := actual_series.kind == .ndarrayK
    let is_pd_dataframe := actual_series.kind == .dataframeK
    if is_pd_dataframe && actual_series.ncols == 1 then
      let actual' := actual_series.squeeze
      let pred' := pred_series.squeeze
      let insample' := insample.map AdapterInput.squeeze
      let is_pd_series := true
      let is_datetime_index :=
        actual'.hasDatetimeIndex && pred'.hasDatetimeIndex &&
          insample'.all AdapterInput.hasDatetimeIndex
      if metricName == "mase" && !is_datetime_index then
        .error .maseNeedsDatetime
      else if is_nd_array || (is_pd_series && !is_datetime_index) then
        .ok (build_metric_call metricName (toTSFromValues actual')
          (toTSFromValues pred') (insample'.map toTSFromValues) m intersect)
      else if is_pd_series && is_datetime_index then
        .ok (build_metric_call metricName (toTSFromSeries actual')
          (toTSFromSeries pred') (insample'.map toTSFromSeries) m intersect)
      else
        .error .normalizationError
    else
      .error .dataframesNotSupported

/- ### Helper lemmas -/

/-- Adding the trend back onto the residual recovers the original series,
provided the trend has the same length as the series. -/
lemma zipWith_sub_add : ∀ (x t : List ℝ), t.length = x.length →
    List.zipWith (fun a b => a + b) (List.zipWith (fun a b => a - b) x t) t = x
  | [], _, _ => by simp
  | _ :: _, [], h => by simp at h
  | a :: xs, b :: ts, h => by
    simp only [List.zipWith_cons_cons]
    rw [zipWith_sub_add xs ts (by simpa using h)]
    simp

/-- The logdiff inverse closure applied to the logdiff transform recovers the
original series with its last element dropped (for positive inputs). -/
lemma logdiff_inverse_transform_eq : ∀ (x : List ℝ), (∀ a ∈ x, 0 < a) →
    logdiff_inverse x (logdiff_transform x) = x.dropLast
  | [], _ => by simp [logdiff_inverse, logdiff_transform]
  | [a], _ => by simp [logdiff_inverse, logdiff_transform]
  | a :: b :: t, h => by
    have ha : 0 < a := h a (by simp)
    have hb : 0 < b := h b (by simp)
    have ih := logdiff_inverse_transform_eq (b :: t) (fun y hy => h y (by simp [hy]))
    simp only [logdiff_transform, logdiff_inverse, List.dropLast_cons₂,
      List.drop_succ_cons, List.drop_zero, List.map_cons,
      List.zipWith_cons_cons] at ih ⊢
    rw [ih, Real.exp_log (div_pos ha hb), div_mul_cancel₀ a hb.ne']

/- ### Claim theorems: stationarity transformer -/

/-- C2 counterexample: at the positive input `x = [1, 2]` with method
`"logdiff"`, applying the returned inverse to the transformed output yields
`[1]` — the original with its last element dropped — which is one element
shorter than `x = [1, 2]` and hence not approximately equal to it under any
floating-point tolerance. -/
theorem make_stationary_logdiff_not_full_roundtrip :
    ((make_stationary [1, 2] [0, 0] "logdiff" ⟨none, []⟩).1).roundTrip = some [(1 : ℝ)] ∧
    ((make_stationary [1, 2] [0, 0] "logdiff" ⟨none, []⟩).1).roundTrip ≠ some [(1 : ℝ), 2] := by
  have h : ((make_stationary [1, 2] [0, 0] "logdiff" ⟨none, []⟩).1).roundTrip =
      some (([1, 2] : List ℝ).dropLast) := by
    simp only [make_stationary, StatOutcome.roundTrip, String.reduceEq, reduceIte]
    rw [logdiff_inverse_transform_eq [1, 2] (by
      intro a ha
      simp only [List.mem_cons, List.not_mem_nil, or_false] at ha
      rcases ha with rfl | rfl <;> norm_num)]
  rw [show (([1, 2] : List ℝ).dropLast) = [(1 : ℝ)] from rfl] at h
  exact ⟨h, by rw [h]; simp⟩

/-- C2 (amended): for method `"detrend"` (with a trend of the same length as
the input) the inverse of the transform reconstructs the original series `x`
exactly; for method `"logdiff"` (on a positive series) it reconstructs the
original series with its last element removed, `x.dropLast`, one element
shorter than `x`. -/
theorem make_stationary_roundtrip_amended :
    (∀ (x trend : List ℝ) (kw : DetrendKwargs), trend.length = x.length →
      ((make_stationary x trend "detrend" kw).1).roundTrip = some x) ∧
    (∀ (x trend : List ℝ) (kw : DetrendKwargs), (∀ a ∈ x, 0 < a) →
      ((make_stationary x trend "logdiff" kw).1).roundTrip = some x.dropLast) := by
  constructor
  · intro x trend kw h
    simp only [make_stationary, StatOutcome.roundTrip, String.reduceEq, reduceIte, _detrend]
    rw [zipWith_sub_add x trend h]
  · intro x trend kw h
    simp only [make_stationary, StatOutcome.roundTrip, String.reduceEq, reduceIte]
    rw [logdiff_inverse_transform_eq x h]

/-- Witness for C2 (amended) at concrete inputs: detrend round-trips
`x = [3, 4]` with trend `[1, 1]` exactly; logdiff on `x = [1, 2]` round-trips
to `[1, 2].dropLast`. -/
theorem make_stationary_roundtrip_amended_witness :
    (([1, 1] : List ℝ).length = ([3, 4] : List ℝ).length ∧
      ((make_stationary [3, 4] [1, 1] "detrend" ⟨none, []⟩).1).roundTrip = some [3, 4]) ∧
    ((∀ a ∈ ([1, 2] : List ℝ), 0 < a) ∧
      ((make_stationary [1, 2] [0, 0] "logdiff" ⟨none, []⟩).1).roundTrip =
        some (([1, 2] : List ℝ).dropLast)) := by
  have hpos : ∀ a ∈ ([1, 2] : List ℝ), 0 < a := by
    intro a ha
    simp only [List.mem_cons, List.not_mem_nil, or_false] at ha
    rcases ha with rfl | rfl <;> norm_num
  exact ⟨⟨by simp, make_stationary_roundtrip_amended.1 [3, 4] [1, 1] ⟨none, []⟩ (by simp)⟩,
    ⟨hpos, make_stationary_roundtrip_amended.2 [1, 2] [0, 0] ⟨none, []⟩ hpos⟩⟩

/-- C4 counterexample: calling `make_stationary` with method `"detrend"` and
a caller dict in which `return_trend` is explicitly `false` leaves the
caller's dict with `return_trend = true` after the call — the dict object the
caller passed in is mutated, not left unmodified. -/
theorem make_stationary_mutates_kwargs :
    (make_stationary [1, 2] [1, 1] "detrend" ⟨some false, []⟩).2 = ⟨some true, []⟩ ∧
    (make_stationary [1, 2] [1, 1] "detrend" ⟨some false, []⟩).2 ≠ ⟨some false, []⟩ := by
  have h : (make_stationary [1, 2] [1, 1] "detrend" ⟨some false, []⟩).2 = ⟨some true, []⟩ := by
    simp [make_stationary, detrend_invocation_kwargs]
  exact ⟨h, by rw [h]; simp⟩

/-- C4 (amended): for any method other than `"detrend"` the caller's dict is
left unmodified; for method `"detrend"` the only modification is that the
`return_trend` entry of the caller's dict is set to `true` (everything else
is passed through untouched). -/
theorem make_stationary_kwargs_state (x trend : List ℝ) (method : String)
    (kw : DetrendKwargs) :
    (method ≠ "detrend" → (make_stationary x trend method kw).2 = kw) ∧
    (method = "detrend" →
      (make_stationary x trend method kw).2 = { kw with return_trend := some true }) := by
  constructor
  · intro h
    by_cases h2 : method = "logdiff" <;> simp [make_stationary, h, h2]
  · intro h
    subst h
    simp [make_stationary, detrend_invocation_kwargs]

/-- Witness for C4 (amended) at concrete inputs: `"logdiff"` leaves the dict
untouched, `"detrend"` sets its `return_trend` entry to `true`. -/
theorem make_stationary_kwargs_state_witness :
    ("logdiff" ≠ "detrend" ∧
      (make_stationary [1] [] "logdiff" ⟨some false, []⟩).2 = ⟨some false, []⟩) ∧
    ("detrend" = "detrend" ∧
      (make_stationary [1] [] "detrend" ⟨some false, []⟩).2 =
        { (⟨some false, []⟩ : DetrendKwargs) with return_trend := some true }) :=
  ⟨⟨by decide, (make_stationary_kwargs_state [1] [] "logdiff" ⟨some false, []⟩).1 (by decide)⟩,
   ⟨rfl, (make_stationary_kwargs_state [1] [] "detrend" ⟨some false, []⟩).2 rfl⟩⟩

/-- C5: on the `"detrend"` branch the detrending collaborator is invoked with
the caller's dict updated so that `return_trend` is `true`, whatever the
caller supplied for that key (including an explicit `false`): the dict handed
to `_detrend` — which is also the dict state `make_stationary` leaves behind —
always carries `return_trend = some true`. -/
theorem make_stationary_forces_return_trend (x trend : List ℝ) (kw : DetrendKwargs) :
    (make_stationary x trend "detrend" kw).2 = detrend_invocation_kwargs kw ∧
    (detrend_invocation_kwargs kw).return_trend = some true := by
  exact ⟨by simp [make_stationary], rfl⟩

/-- C6 counterexample: for the unrecognized method `"foo"`,
`make_stationary` does not signal any error — the call returns normally
(`isRaised = false`), producing no `StationaryResult` (`noResult`, Python's
implicit `return None`) and leaving the dict untouched. -/
theorem make_stationary_unknown_method_silent :
    ((make_stationary [1] [] "foo" ⟨none, []⟩).1).isRaised = false ∧
    make_stationary [1] [] "foo" ⟨none, []⟩ = (StatOutcome.noResult, ⟨none, []⟩) := by
  constructor <;> simp [make_stationary, StatOutcome.isRaised]

/-- C6 (amended): for every method outside `{"detrend", "logdiff"}` the
function produces no `StationaryResult`, but it does not signal a
configuration error either: it silently falls through the `if`/`elif` chain
and returns `None`, leaving the caller's dict unchanged. -/
theorem make_stationary_unknown_method_noResult (x trend : List ℝ) (method : String)
    (kw : DetrendKwargs) (h1 : method ≠ "detrend") (h2 : method ≠ "logdiff") :
    make_stationary x trend method kw = (StatOutcome.noResult, kw) := by
  simp [make_stationary, h1, h2]

/-- Witness for C6 (amended) at the concrete unknown method `"foo"`. -/
theorem make_stationary_unknown_method_noResult_witness :
    "foo" ≠ "detrend" ∧ "foo" ≠ "logdiff" ∧
      make_stationary [1] [] "foo" ⟨none, []⟩ = (StatOutcome.noResult, ⟨none, []⟩) :=
  ⟨by decide, by decide,
    make_stationary_unknown_method_noResult [1] [] "foo" ⟨none, []⟩ (by decide) (by decide)⟩

/- ### Claim theorems: forecast bias -/

/-- Dividing by a zero denominator never yields a finite IEEE value. -/
lemma py_div_zero_nonfinite (a : ℚ) : (py_div a 0).isFinite = false := by
  simp only [py_div, if_pos rfl]
  split_ifs <;> rfl

/-- Multiplying a non-finite IEEE value by a positive constant keeps it
non-finite. -/
lemma py_mul_const_pos_nonfinite (f : PyFloat) (hf : f.isFinite = false)
    (c : ℚ) (hc : 0 < c) : (py_mul_const f c).isFinite = false := by
  cases f with
  | fin q => simp [PyFloat.isFinite] at hf
  | inf => simp [py_mul_const, if_pos hc, PyFloat.isFinite]
  | neginf => simp [py_mul_const, if_pos hc, PyFloat.isFinite]
  | nan => rfl

/-- C7: for every pair of inputs of differing representation kinds, both the
dispatcher `darts_metrics_adapter` and `forecast_bias` fail with the
`TypeMismatch` error of their very first `assert`, before any computation. -/
theorem typeMismatch_rejection :
    (∀ (name : String) (a p : AdapterInput) (ins : Option AdapterInput) (m : ℤ) (i : Bool),
      a.kind ≠ p.kind → darts_metrics_adapter name a p ins m i = .error .typeMismatch) ∧
    (∀ (a p : FBInput) (i : Bool), a.kind ≠ p.kind →
      forecast_bias a p i = .error .typeMismatch) := by
  constructor
  · intro name a p ins m i h
    simp [darts_metrics_adapter, h]
  · intro a p i h
    simp [forecast_bias, h]

/-- Witness for C7 at concrete mismatched inputs: a raw array against an
indexed series is rejected by both functions. -/
theorem typeMismatch_rejection_witness :
    ((AdapterInput.ndarray [1]).kind ≠ (AdapterInput.series ⟨true, [0]⟩ [1]).kind ∧
      darts_metrics_adapter "mae" (.ndarray [1]) (.series ⟨true, [0]⟩ [1]) none 1 true =
        .error .typeMismatch) ∧
    ((FBInput.ndarray [some 1]).kind ≠ (FBInput.timeSeries [(0, some 1)]).kind ∧
      forecast_bias (.ndarray [some 1]) (.timeSeries [(0, some 1)]) true =
        .error .typeMismatch) :=
  ⟨⟨by decide, typeMismatch_rejection.1 "mae" _ _ none 1 true (by decide)⟩,
   ⟨by decide, typeMismatch_rejection.2 _ _ true (by decide)⟩⟩

/-- C8: for every pair of same-kind inputs whose retained actual values (the
pairs left after dropping, pairwise, every position where either series holds
NaN) do not sum to zero, `forecast_bias` returns the finite value
`100 * (sum(actual) - sum(predicted)) / sum(actual)` computed over exactly
those retained pairs. -/
theorem forecast_bias_formula (a p : FBInput) (i : Bool)
    (hk : a.kind = p.kind) (hs : (retained a p i).1.sum ≠ 0) :
    forecast_bias a p i =
      .ok (.fin (100 * ((retained a p i).1.sum - (retained a p i).2.sum) /
        (retained a p i).1.sum)) := by
  have hd : py_div ((retained a p i).1.sum - (retained a p i).2.sum)
      ((retained a p i).1.sum) =
      .fin (((retained a p i).1.sum - (retained a p i).2.sum) /
        (retained a p i).1.sum) := by
    simp [py_div, hs]
  simp only [forecast_bias, hk, ne_eq, not_true_eq_false, if_false, hd, py_mul_const]
  norm_num
  ring

/-- Witness for C8 at the spec's two concrete examples:
`actual=[100,100], predicted=[90,90]` gives bias `10`; and with
`actual=[1,NaN,3], predicted=[1,2,NaN]` only the pair `(1,1)` is retained,
giving bias `0`. -/
theorem forecast_bias_formula_witness :
    ((FBInput.ndarray [some 100, some 100]).kind =
        (FBInput.ndarray [some 90, some 90]).kind ∧
      (retained (.ndarray [some 100, some 100]) (.ndarray [some 90, some 90]) true).1.sum ≠ 0 ∧
      forecast_bias (.ndarray [some 100, some 100]) (.ndarray [some 90, some 90]) true =
        .ok (.fin 10)) ∧
    ((retained (.ndarray [some 1, none, some 3]) (.ndarray [some 1, some 2, none]) true) =
        ([1], [1]) ∧
      forecast_bias (.ndarray [some 1, none, some 3]) (.ndarray [some 1, some 2, none]) true =
        .ok (.fin 0)) := by
  have h1 := forecast_bias_formula (.ndarray [some 100, some 100])
    (.ndarray [some 90, some 90]) true rfl (by simp [retained, _remove_nan_union, fb_values])
  have h2 := forecast_bias_formula (.ndarray [some 1, none, some 3])
    (.ndarray [some 1, some 2, none]) true rfl (by simp [retained, _remove_nan_union, fb_values])
  refine ⟨⟨rfl, by simp [retained, _remove_nan_union, fb_values], ?_⟩,
    ⟨by simp [retained, _remove_nan_union, fb_values], ?_⟩⟩
  · rw [h1]
    norm_num [retained, _remove_nan_union, fb_values, List.filterMap_cons]
  · rw [h2]
    norm_num [retained, _remove_nan_union, fb_values, List.filterMap_cons]

/-- C9: whenever the retained actual values sum to zero after pairwise NaN
removal, `forecast_bias` raises no error (the zero-baseline guard is
commented out in the source): it returns normally, and the IEEE division by
the zero sum makes the returned value non-finite (an infinity or NaN). -/
theorem forecast_bias_zero_actual_sum_nonfinite (a p : FBInput) (i : Bool)
    (hk : a.kind = p.kind) (hs : (retained a p i).1.sum = 0) :
    ∃ r, forecast_bias a p i = .ok r ∧ r.isFinite = false := by
  refine ⟨py_mul_const (py_div ((retained a p i).1.sum - (retained a p i).2.sum)
      ((retained a p i).1.sum)) 100, ?_, ?_⟩
  · simp [forecast_bias, hk]
  · rw [hs]
    exact py_mul_const_pos_nonfinite _ (py_div_zero_nonfinite _) 100 (by norm_num)

/-- Witness for C9 at a concrete input: `actual=[0]`, `predicted=[1]` (equal
kinds, zero actual sum) returns a non-finite value without failing. -/
theorem forecast_bias_zero_actual_sum_nonfinite_witness :
    (FBInput.ndarray [some 0]).kind = (FBInput.ndarray [some 1]).kind ∧
    (retained (.ndarray [some 0]) (.ndarray [some 1]) true).1.sum = 0 ∧
    (∃ r, forecast_bias (.ndarray [some 0]) (.ndarray [some 1]) true = .ok r ∧
      r.isFinite = false) :=
  ⟨rfl, by simp [retained, _remove_nan_union, fb_values],
    forecast_bias_zero_actual_sum_nonfinite (.ndarray [some 0]) (.ndarray [some 1]) true rfl
      (by simp [retained, _remove_nan_union, fb_values])⟩

/-- C10: for numpy-array inputs of equal length, the result of
`forecast_bias` does not depend on the `intersect` flag — the raw-array
branch never performs a time-range restriction. -/
theorem forecast_bias_ndarray_intersect_irrelevant (va vp : List (Option ℚ))
    (h : va.length = vp.length) :
    forecast_bias (.ndarray va) (.ndarray vp) true =
      forecast_bias (.ndarray va) (.ndarray vp) false := rfl

/-- Witness for C10 at a concrete equal-length pair. -/
theorem forecast_bias_ndarray_intersect_irrelevant_witness :
    ([some (1 : ℚ)] : List (Option ℚ)).length = ([some 2] : List (Option ℚ)).length ∧
    forecast_bias (.ndarray [some 1]) (.ndarray [some 2]) true =
      forecast_bias (.ndarray [some 1]) (.ndarray [some 2]) false :=
  ⟨rfl, forecast_bias_ndarray_intersect_irrelevant [some 1] [some 2] rfl⟩

/- ### Claim theorems: metric dispatcher -/

/-- C1 evaluation at the failing inputs: the dispatcher does not coerce and
forward raw numpy arrays, nor series lacking a datetime index — both are
rejected with the `"Dataframes not supported in the adapter. Use either
Series with datetime index or numpy arrays"` `ValueError`, because the
`else` of the single-column-DataFrame check catches every non-DataFrame
input.  This contradicts the error message's own instructions and makes the
array/series coercion branch below it unreachable. -/
theorem darts_metrics_adapter_rejects_arrays_and_series :
    darts_metrics_adapter "mae" (.ndarray [1, 2]) (.ndarray [1, 2]) none 1 true =
      .error .dataframesNotSupported ∧
    darts_metrics_adapter "mae" (.series ⟨false, [0, 1]⟩ [1, 2])
        (.series ⟨false, [0, 1]⟩ [1, 2]) none 1 true =
      .error .dataframesNotSupported := by
  exact ⟨by decide, by decide⟩

/-- C3 evaluation: a `"mase"` call with genuinely datetime-indexed Series
inputs does not succeed — it dies on the misattached `"Dataframes not
supported..."` `ValueError` before the index logic is ever consulted.  The
intended logic is reachable only for single-column DataFrames: there, a
non-datetime index fails with the `MissingDatetimeIndex` error (`"MASE needs
pandas Series with datetime index as inputs"`), and a datetime index
succeeds, forwarding `insample` and `m` to the metric function. -/
theorem darts_metrics_adapter_mase_paths :
    darts_metrics_adapter "mase" (.series ⟨true, [0, 1]⟩ [1, 2])
        (.series ⟨true, [0, 1]⟩ [1, 2]) (some (.series ⟨true, [0, 1]⟩ [3, 4])) 1 true =
      .error .dataframesNotSupported ∧
    darts_metrics_adapter "mase" (.dataframe 1 ⟨false, [0, 1]⟩ [1, 2])
        (.dataframe 1 ⟨false, [0, 1]⟩ [3, 4])
        (some (.dataframe 1 ⟨false, [0, 1]⟩ [5, 6])) 1 true =
      .error .maseNeedsDatetime ∧
    darts_metrics_adapter "mase" (.dataframe 1 ⟨true, [0, 1]⟩ [1, 2])
        (.dataframe 1 ⟨true, [0, 1]⟩ [3, 4])
        (some (.dataframe 1 ⟨true, [0, 1]⟩ [5, 6])) 1 true =
      .ok ⟨"mase", .fromSeries ⟨true, [0, 1]⟩ [1, 2], .fromSeries ⟨true, [0, 1]⟩ [3, 4],
        some (.fromSeries ⟨true, [0, 1]⟩ [5, 6]), some 1, true⟩ := by
  exact ⟨by decide, by decide, by decide⟩

end TsUtils
